import Mathlib

/-!
Verification development for the data-synchronization core of the
glow-fm-media-app repository (src/data/useGlowData.ts).

The TypeScript source is shallowly embedded:
  - JSON values (results of JSON.parse on remote payloads) are the mutual
    inductive Json / JsonList / JsonFields below; object fields keep the
    insertion order of the JS object, as Object.entries does.
  - stripLivewire, unwrapSingleton, normalizeList, extractWireSnapshot,
    htmlUnescape, fetchRemoteJson and the fetch chain are translated
    function by function from useGlowData.ts.
  - the content snapshot (GlowData), its patches and mergeGlowData are
    translated from mergeGlowData; JS object spread on the nested records
    hero / currentShow is modelled with key-to-value maps.
  - the sync callback is modelled as a pure state-transition function on
    the scheduler state (lock, isSyncing, lastSync, data).
-/

mutual

/-- JSON values as produced by JSON.parse in the source.  Numbers in the
payloads relevant here are integers, so they are modelled as Int.  The
mutual formulation (instead of a nested List) gives structural recursion
and induction over arrays and object field lists. -/
inductive Json where
  | null : Json
  | bool (b : Bool) : Json
  | num (n : Int) : Json
  | str (s : String) : Json
  | arr (items : JsonList) : Json
  | obj (fields : JsonFields) : Json

inductive JsonList where
  | nil : JsonList
  | cons (hd : Json) (tl : JsonList) : JsonList

inductive JsonFields where
  | nil : JsonFields
  | cons (key : String) (val : Json) (tl : JsonFields) : JsonFields

end

/-- JS test `item !== null` specialised to JSON values. -/
def Json.isNull : Json → Bool
  | .null => true
  | _ => false

/-- JS property test `k in value` on a JSON object field list. -/
def fieldsHasKey (k : String) : JsonFields → Bool
  | .nil => false
  | .cons key _ tl => key = k || fieldsHasKey k tl

/-- The `'s' in value` test of stripLivewire (src line 42). -/
def hasKeyS (fields : JsonFields) : Bool :=
  fieldsHasKey "s" fields

mutual

/-- stripLivewire (src lines 34-55).  `none` models the JS value
`undefined` returned for wrapper objects that contain the reserved key
`s`; array entries whose cleaned value is undefined or null are dropped,
object fields whose cleaned value is undefined are dropped. -/
def stripLivewire : Json → Option Json
  | .null => some .null
  | .bool b => some (.bool b)
  | .num n => some (.num n)
  | .str s => some (.str s)
  | .arr items => some (.arr (stripArr items))
  | .obj fields =>
    if hasKeyS fields then none else some (.obj (stripFields fields))

def stripArr : JsonList → JsonList
  | .nil => .nil
  | .cons hd tl =>
    match stripLivewire hd with
    | none => stripArr tl
    | some v => if v.isNull then stripArr tl else .cons v (stripArr tl)

def stripFields : JsonFields → JsonFields
  | .nil => .nil
  | .cons k e tl =>
    match stripLivewire e with
    | none => stripFields tl
    | some c => .cons k c (stripFields tl)

end

/-- unwrapSingleton (src lines 57-63): the while loop replacing an array
of length 1 by its sole element until the result is not a one-element
array. -/
def unwrapSingleton : Json → Json
  | .arr (.cons x .nil) => unwrapSingleton x
  | .null => .null
  | .bool b => .bool b
  | .num n => .num n
  | .str s => .str s
  | .arr .nil => .arr .nil
  | .arr (.cons x (.cons y tl)) => .arr (.cons x (.cons y tl))
  | .obj fields => .obj fields

/-- Decides whether the while condition of unwrapSingleton holds: the
value is an array of length exactly 1. -/
def isSingletonArr : Json → Bool
  | .arr (.cons _ .nil) => true
  | _ => false

/-- The `value.map(unwrapSingleton)` step of normalizeList. -/
def mapUnwrap : JsonList → JsonList
  | .nil => .nil
  | .cons hd tl => .cons (unwrapSingleton hd) (mapUnwrap tl)

/-- normalizeList (src lines 65-72). -/
def normalizeList : Json → JsonList
  | .arr items =>
    match mapUnwrap items with
    | .cons (.arr inner) .nil => mapUnwrap inner
    | flattened => flattened
  | _ => .nil

mutual

/-- Checks recursively that no array in the value has a null entry
(object field values may still be null; only array entries are
filtered by stripLivewire). -/
def arraysNullFree : Json → Bool
  | .arr items => listNullFree items
  | .obj fields => fieldsNullFree fields
  | _ => true

def listNullFree : JsonList → Bool
  | .nil => true
  | .cons hd tl => !hd.isNull && arraysNullFree hd && listNullFree tl

def fieldsNullFree : JsonFields → Bool
  | .nil => true
  | .cons _ v tl => arraysNullFree v && fieldsNullFree tl

end

/-- htmlUnescape (src lines 14-20): the five global replacements, in
source order.  The apostrophe replacement target is built from its
character code. -/
def htmlUnescape (s : String) : String :=
  ((((s.replace "&quot;" "\"").replace "&#039;"
        (String.singleton (Char.ofNat 39))).replace "&amp;" "&").replace
      "&lt;" "<").replace "&gt;" ">"

/-- The literal part of the regex wire:snapshot=\"([^\"]+)\" matched
before the capture group. -/
def snapshotMarker : List Char :=
  "wire:snapshot=\"".toList

/-- Attempts the capture group ([^\"]+)\" at the current position: a
non-empty run of non-quote characters followed by a closing quote. -/
def takeCapture (cs : List Char) : Option String :=
  match cs.takeWhile (fun c => c ≠ '"') with
  | [] => none
  | run =>
    if (cs.drop run.length).head? = some '"' then some (String.mk run)
    else none

/-- The regex search of extractWireSnapshot (src line 23): try the
pattern at each start position in turn and return the first capture. -/
def scanSnapshot : List Char → Option String
  | [] => none
  | c :: cs =>
    if snapshotMarker.isPrefixOf (c :: cs) then
      match takeCapture ((c :: cs).drop snapshotMarker.length) with
      | some v => some v
      | none => scanSnapshot cs
    else scanSnapshot cs

/-- Substring occurrence test used to state that the fixed marker is
absent from the input HTML. -/
def containsSub (pat : List Char) : List Char → Bool
  | [] => pat.isPrefixOf []
  | c :: cs => pat.isPrefixOf (c :: cs) || containsSub pat cs

/-- extractWireSnapshot (src lines 22-32).  JSON.parse is the JS runtime
parser, passed in as a function returning none where JSON.parse would
throw; the try/catch of the source maps that failure to null (none). -/
def extractWireSnapshot (parse : String → Option Json) (html : String) :
    Option Json :=
  match scanSnapshot html.toList with
  | none => none
  | some captured => parse (htmlUnescape captured)

/-- REMOTE_GLOW_DATA_URL (src line 12): unconfigured in the default
build. -/
def REMOTE_GLOW_DATA_URL : String := ""

/-- The `'home' in payload` acceptance test of fetchRemoteJson (src line
240) together with the falsy/typeof guards: only a JSON object whose
field list has a home key passes. -/
def jsonHasHome : Json → Bool
  | .obj fields => fieldsHasKey "home" fields
  | _ => false

/-- fetchRemoteJson (src lines 237-242).  net is the JSON document that
fetchJson would deliver for the configured URL (none for a non-ok HTTP
status or transport failure); the returned Bool records whether a
network request was issued at all. -/
def fetchRemoteJson (url : String) (net : Option Json) :
    Option Json × Bool :=
  if url = "" then (none, false)
  else
    match net with
    | none => (none, true)
    | some payload =>
      (if jsonHasHome payload then some payload else none, true)

/-- Opaque element of a canonical ordered list (NewsCard, BlogCard,
Episode, ShowSummary, stat entry, ...): mergeGlowData never inspects
list elements, so they are modelled by an abstract token. -/
abbrev Item := String

/-- A JS record (the nested hero / currentShow objects) as a map from
key to value; none means the key is absent from the object.  Values are
display strings as in the seeded snapshot. -/
abbrev Rcd := String → Option String

/-- The record with no keys: the empty JS object literal used as the
fallback for an absent hero or currentShow patch (src lines 192, 196). -/
def emptyRcd : Rcd := fun _ => none

/-- JS object spread of a patch record over a base record (src lines
190-197): a key present in the patch wins, whatever its value; a key
absent from the patch keeps the base value. -/
def rcdSpread (base patch : Rcd) : Rcd := fun k =>
  match patch k with
  | some v => some v
  | none => base k

/-- The home sub-record of the content snapshot.  Field set from the
spec data model and the accesses of mergeGlowData / App.tsx; every field
is always present (the store is seeded with a complete bundle). -/
structure HomeData where
  hero : Rcd
  currentShow : Rcd
  stats : List Item
  trendingNews : List Item
  featuredNews : List Item
  mostViewedNews : List Item
  otherNews : List Item
  latestNews : List Item
  latestBlogPosts : List Item
  latestPodcastEpisodes : List Item
  featuredShows : List Item
  upcomingEvents : List Item

/-- The complete content snapshot (GlowData, src line 5; field set from
the spec data model and the accesses in App.tsx).  schedule, about and
contact are records that mergeGlowData never looks inside, so they are
opaque tokens here. -/
structure GlowData where
  home : HomeData
  schedule : Item
  shows : List Item
  showCategories : List Item
  newsPosts : List Item
  blogPosts : List Item
  podcasts : List Item
  team : List Item
  oaps : List Item
  about : Item
  contact : Item

/-- A partial update to the home sub-record: every field optional, as in
the JS patch object where a key may be absent. -/
structure HomePatch where
  hero : Option Rcd
  currentShow : Option Rcd
  stats : Option (List Item)
  trendingNews : Option (List Item)
  featuredNews : Option (List Item)
  mostViewedNews : Option (List Item)
  otherNews : Option (List Item)
  latestNews : Option (List Item)
  latestBlogPosts : Option (List Item)
  latestPodcastEpisodes : Option (List Item)
  featuredShows : Option (List Item)
  upcomingEvents : Option (List Item)

/-- Partial GlowData (the TS type Partial of GlowData). -/
structure GlowPatch where
  home : Option HomePatch
  schedule : Option Item
  shows : Option (List Item)
  showCategories : Option (List Item)
  newsPosts : Option (List Item)
  blogPosts : Option (List Item)
  podcasts : Option (List Item)
  team : Option (List Item)
  oaps : Option (List Item)
  about : Option Item
  contact : Option Item

/-- The home patch with no keys: the empty JS object literal used as the
fallback for an absent home patch (src line 183). -/
def emptyHomePatch : HomePatch :=
  ⟨none, none, none, none, none, none, none, none, none, none, none, none⟩

/-- The empty patch: the JS object literal with no keys. -/
def emptyGlowPatch : GlowPatch :=
  ⟨none, none, none, none, none, none, none, none, none, none, none⟩

/-- The conditional `p?.length ? p : b` applied to the explicitly merged
list fields of mergeGlowData (src lines 198-216): the patch list wins
only when present and non-empty. -/
def listPatch (p : Option (List Item)) (b : List Item) : List Item :=
  match p with
  | some l => if l.isEmpty then b else l
  | none => b

/-- mergeGlowData (src lines 182-218).  The top-level spread
`...base, ...patch` gives fields not explicitly rebuilt (schedule,
shows, showCategories, team, oaps, about, contact) straight to the
patch whenever the patch carries them; the home record is rebuilt with
the spread `...base.home, ...homePatch` (which is what upcomingEvents
falls through to) followed by the explicit per-field rules. -/
def mergeGlowData (base : GlowData) (patch : GlowPatch) : GlowData :=
  let homePatch := patch.home.getD emptyHomePatch
  { home :=
      { hero := rcdSpread base.home.hero (homePatch.hero.getD emptyRcd)
        currentShow :=
          rcdSpread base.home.currentShow (homePatch.currentShow.getD emptyRcd)
        stats := listPatch homePatch.stats base.home.stats
        trendingNews := listPatch homePatch.trendingNews base.home.trendingNews
        featuredNews := listPatch homePatch.featuredNews base.home.featuredNews
        mostViewedNews :=
          listPatch homePatch.mostViewedNews base.home.mostViewedNews
        otherNews := listPatch homePatch.otherNews base.home.otherNews
        latestNews := listPatch homePatch.latestNews base.home.latestNews
        latestBlogPosts :=
          listPatch homePatch.latestBlogPosts base.home.latestBlogPosts
        latestPodcastEpisodes :=
          listPatch homePatch.latestPodcastEpisodes
            base.home.latestPodcastEpisodes
        featuredShows :=
          listPatch homePatch.featuredShows base.home.featuredShows
        upcomingEvents :=
          homePatch.upcomingEvents.getD base.home.upcomingEvents }
    schedule := patch.schedule.getD base.schedule
    shows := patch.shows.getD base.shows
    showCategories := patch.showCategories.getD base.showCategories
    newsPosts := listPatch patch.newsPosts base.newsPosts
    blogPosts := listPatch patch.blogPosts base.blogPosts
    podcasts := listPatch patch.podcasts base.podcasts
    team := patch.team.getD base.team
    oaps := patch.oaps.getD base.oaps
    about := patch.about.getD base.about
    contact := patch.contact.getD base.contact }

/-- The fetch chain of sync (src line 436): the nullish-coalescing
cascade over the three sources.  The arguments are the results each
source would deliver if consulted; the Nat counts how many sources were
actually awaited before the cascade stopped. -/
def fetchChain (r1 r2 r3 : Option GlowPatch) : Option GlowPatch × Nat :=
  match r1 with
  | some p => (some p, 1)
  | none =>
    match r2 with
    | some p => (some p, 2)
    | none => (r3, 3)

/-- ACTIVE_POLL_INTERVAL_MS (src line 9). -/
def ACTIVE_POLL_INTERVAL_MS : Nat := 20000

/-- BACKGROUND_POLL_INTERVAL_MS (src line 10). -/
def BACKGROUND_POLL_INTERVAL_MS : Nat := 120000

/-- The interval selection of sync (src lines 429-430), with the
appState string comparison modelled as a Bool. -/
def pollInterval (active : Bool) : Nat :=
  if active then ACTIVE_POLL_INTERVAL_MS else BACKGROUND_POLL_INTERVAL_MS

/-- State read and written by one sync call: the syncLock ref, the
isSyncing React state, the lastSyncRef timestamp and the store
snapshot. -/
structure SyncState where
  lock : Bool
  isSyncing : Bool
  lastSync : Nat
  data : GlowData

/-- Result of awaiting the fetch chain inside the try block: a usable
patch, an overall null (every source yielded no data), or a thrown
error (caught by the catch clause). -/
inductive FetchOutcome where
  | patch (p : GlowPatch) : FetchOutcome
  | noData : FetchOutcome
  | err : FetchOutcome

/-- sync (src lines 426-449) as a state transition.  now is Date.now()
at the interval check (line 431) and fin is Date.now() at the success
assignment (line 439); outcome is what awaiting the fetch chain
produced.  The returned Bool records whether the fetch chain was
invoked at all.  Timestamps are Nats: in JS a clock earlier than
lastSync gives a negative difference, which is below the positive
interval exactly as the truncated Nat difference 0 is.  The catch
clause only logs, so the function is total: no outcome raises to the
caller; the finally clause is the lock := false, isSyncing := false in
every branch below the guard. -/
def sync (st : SyncState) (force : Bool) (active : Bool) (now fin : Nat)
    (outcome : FetchOutcome) : SyncState × Bool :=
  if st.lock then (st, false)
  else if !force && now - st.lastSync < pollInterval active then (st, false)
  else
    match outcome with
    | .patch p =>
      ({ lock := false, isSyncing := false, lastSync := fin,
         data := mergeGlowData st.data p }, true)
    | .noData => ({ st with lock := false, isSyncing := false }, true)
    | .err => ({ st with lock := false, isSyncing := false }, true)

/-- A wrapper node of the scraped state tree: an object carrying the
reserved key s, as in the spec example. -/
def wrapperNode : Json :=
  .obj (.cons "s" (.str "checksum") (.cons "value" (.num 1) .nil))

/-- The spec example subtree with a: 1. -/
def objA1 : Json := .obj (.cons "a" (.num 1) .nil)

/-- The spec example subtree with a: 2. -/
def objA2 : Json := .obj (.cons "a" (.num 2) .nil)

/-- A concrete hero record for the sample snapshot. -/
def sampleHero : Rcd := fun k =>
  if k = "host" then some "Ada"
  else if k = "title" then some "Glow Mornings" else none

/-- A concrete complete snapshot with every list field non-empty, used
to instantiate the merge theorems. -/
def sampleBase : GlowData where
  home :=
    { hero := sampleHero
      currentShow := fun k => if k = "title" then some "Drive Time" else none
      stats := ["stat1"]
      trendingNews := ["tn1"]
      featuredNews := ["fn1"]
      mostViewedNews := ["mv1"]
      otherNews := ["on1"]
      latestNews := ["ln1"]
      latestBlogPosts := ["lb1"]
      latestPodcastEpisodes := ["lp1"]
      featuredShows := ["fs1"]
      upcomingEvents := ["ev1"] }
  schedule := "schedule0"
  shows := ["show1", "show2"]
  showCategories := ["cat1"]
  newsPosts := ["news1"]
  blogPosts := ["blog1"]
  podcasts := ["pod1"]
  team := ["team1"]
  oaps := ["oap1"]
  about := "about0"
  contact := "contact0"

/-- A patch explicitly carrying empty lists for shows and newsPosts, as
the API-bundle path produces when the shows endpoint returns an empty
data array. -/
def sampleC1P : GlowPatch :=
  { emptyGlowPatch with shows := some [], newsPosts := some [] }

/-- A patch whose home.hero supplies host with the empty string and
title with a new value, as the normalizer produces when the source
omits the host (it substitutes the empty string, src line 359). -/
def sampleC2P : GlowPatch :=
  { emptyGlowPatch with
    home := some
      { emptyHomePatch with
        hero := some (fun k =>
          if k = "host" then some ""
          else if k = "title" then some "New Title" else none) } }

/-- Scheduler state with the in-progress guard set. -/
def sampleLocked : SyncState :=
  { lock := true, isSyncing := true, lastSync := 0, data := sampleBase }

/-- Scheduler state at rest: guard clear, flag clear. -/
def sampleUnlocked : SyncState :=
  { lock := false, isSyncing := false, lastSync := 0, data := sampleBase }

mutual

/-- Whatever stripLivewire keeps has no null entry left in any array:
the filter on src line 38 drops them at every depth. -/
theorem strip_arraysNullFree : (j : Json) → (v : Json) →
    stripLivewire j = some v → arraysNullFree v = true
  | .null, v, h => by
    simp only [stripLivewire, Option.some.injEq] at h
    subst h; rfl
  | .bool b, v, h => by
    simp only [stripLivewire, Option.some.injEq] at h
    subst h; rfl
  | .num n, v, h => by
    simp only [stripLivewire, Option.some.injEq] at h
    subst h; rfl
  | .str s, v, h => by
    simp only [stripLivewire, Option.some.injEq] at h
    subst h; rfl
  | .arr items, v, h => by
    simp only [stripLivewire, Option.some.injEq] at h
    subst h
    simpa only [arraysNullFree] using stripArr_listNullFree items
  | .obj fields, v, h => by
    by_cases hs : hasKeyS fields = true
    · simp [stripLivewire, hs] at h
    · simp only [stripLivewire, hs, Bool.false_eq_true, if_false,
        Option.some.injEq] at h
      subst h
      simpa only [arraysNullFree] using stripFields_fieldsNullFree fields

/-- Arrays cleaned by stripLivewire keep neither null nor undefined
entries. -/
theorem stripArr_listNullFree : (l : JsonList) →
    listNullFree (stripArr l) = true
  | .nil => rfl
  | .cons hd tl => by
    cases hm : stripLivewire hd with
    | none =>
      simp only [stripArr, hm]
      exact stripArr_listNullFree tl
    | some v =>
      by_cases hn : v.isNull = true
      · simp only [stripArr, hm, hn, if_true]
        exact stripArr_listNullFree tl
      · simp only [stripArr, hm, hn, Bool.false_eq_true, if_false,
          listNullFree, Bool.and_eq_true, Bool.not_eq_true]
        exact ⟨⟨by simp [hn], strip_arraysNullFree hd v hm⟩,
          stripArr_listNullFree tl⟩

/-- Object field lists cleaned by stripLivewire carry only null-free
values. -/
theorem stripFields_fieldsNullFree : (l : JsonFields) →
    fieldsNullFree (stripFields l) = true
  | .nil => rfl
  | .cons k e tl => by
    cases hm : stripLivewire e with
    | none =>
      simp only [stripFields, hm]
      exact stripFields_fieldsNullFree tl
    | some c =>
      simp only [stripFields, hm, fieldsNullFree, Bool.and_eq_true]
      exact ⟨strip_arraysNullFree e c hm, stripFields_fieldsNullFree tl⟩

end

/-- A successful scan implies the literal marker occurs in the input. -/
theorem scanSnapshot_some_containsSub : ∀ (cs : List Char) (v : String),
    scanSnapshot cs = some v → containsSub snapshotMarker cs = true
  | [], v, h => by simp [scanSnapshot] at h
  | c :: cs, v, h => by
    by_cases hp : snapshotMarker.isPrefixOf (c :: cs) = true
    · simp [containsSub, hp]
    · simp only [scanSnapshot, hp, Bool.false_eq_true, if_false] at h
      simp only [containsSub, hp, Bool.false_or]
      exact scanSnapshot_some_containsSub cs v h

/-- The three behaviours of the patch-list rule p?.length ? p : b. -/
theorem listPatch_spec (p : Option (List Item)) (b : List Item) :
    (b ≠ [] → listPatch p b ≠ [])
    ∧ ((p = none ∨ p = some []) → listPatch p b = b)
    ∧ (∀ l, p = some l → l ≠ [] → listPatch p b = l) := by
  refine ⟨?_, ?_, ?_⟩
  · intro hb
    cases p with
    | none => simpa [listPatch] using hb
    | some l =>
      by_cases hl : l.isEmpty
      · simpa [listPatch, hl] using hb
      · simpa [listPatch, hl] using (by simpa using hl : l ≠ [])
  · rintro (rfl | rfl) <;> simp [listPatch]
  · rintro l rfl hl
    simp [listPatch, List.isEmpty_iff, hl]

/-- C9: merging any complete snapshot with the empty patch returns a
snapshot equal to it in every scalar, record and list field, including
the nested hero and currentShow records and every list under home. -/
theorem mergeGlowData_empty_patch_identity :
    ∀ S : GlowData, mergeGlowData S emptyGlowPatch = S :=
  fun _ => rfl

/-- C1 counterexample: the claim fails for the top-level shows field.
The sample snapshot has a non-empty shows list and the patch supplies
an explicitly empty shows list (not a non-empty replacement), yet the
merge result has an empty shows list: the top-level spread passes the
patch value through with no non-empty guard. -/
theorem mergeGlowData_empty_shows_clears :
    sampleBase.shows ≠ [] ∧ sampleC1P.shows = some []
      ∧ (mergeGlowData sampleBase sampleC1P).shows = [] := by
  refine ⟨?_, rfl, rfl⟩
  simp [sampleBase]

/-- C1 amended: the non-empty-wins rule holds exactly for the fields
mergeGlowData guards explicitly, namely newsPosts, blogPosts, podcasts
and the nine home lists stats, trendingNews, featuredNews,
mostViewedNews, otherNews, latestNews, latestBlogPosts,
latestPodcastEpisodes and featuredShows: there a previously non-empty
list never becomes empty and an absent or empty patch list retains the
old list; but the unguarded list fields (top-level shows and
showCategories, and home.upcomingEvents) are replaced wholesale by any
patch value, empty included. -/
theorem mergeGlowData_nonempty_wins (S : GlowData) (P : GlowPatch) :
    ((S.newsPosts ≠ [] → (mergeGlowData S P).newsPosts ≠ [])
      ∧ ((P.newsPosts = none ∨ P.newsPosts = some []) →
          (mergeGlowData S P).newsPosts = S.newsPosts)
      ∧ (∀ l, P.newsPosts = some l → l ≠ [] →
          (mergeGlowData S P).newsPosts = l))
    ∧ ((S.blogPosts ≠ [] → (mergeGlowData S P).blogPosts ≠ [])
      ∧ ((P.blogPosts = none ∨ P.blogPosts = some []) →
          (mergeGlowData S P).blogPosts = S.blogPosts)
      ∧ (∀ l, P.blogPosts = some l → l ≠ [] →
          (mergeGlowData S P).blogPosts = l))
    ∧ ((S.podcasts ≠ [] → (mergeGlowData S P).podcasts ≠ [])
      ∧ ((P.podcasts = none ∨ P.podcasts = some []) →
          (mergeGlowData S P).podcasts = S.podcasts)
      ∧ (∀ l, P.podcasts = some l → l ≠ [] →
          (mergeGlowData S P).podcasts = l))
    ∧ ((S.home.stats ≠ [] → (mergeGlowData S P).home.stats ≠ [])
      ∧ (((P.home.getD emptyHomePatch).stats = none
            ∨ (P.home.getD emptyHomePatch).stats = some []) →
          (mergeGlowData S P).home.stats = S.home.stats)
      ∧ (∀ l, (P.home.getD emptyHomePatch).stats = some l → l ≠ [] →
          (mergeGlowData S P).home.stats = l))
    ∧ ((S.home.trendingNews ≠ [] → (mergeGlowData S P).home.trendingNews ≠ [])
      ∧ (((P.home.getD emptyHomePatch).trendingNews = none
            ∨ (P.home.getD emptyHomePatch).trendingNews = some []) →
          (mergeGlowData S P).home.trendingNews = S.home.trendingNews)
      ∧ (∀ l, (P.home.getD emptyHomePatch).trendingNews = some l → l ≠ [] →
          (mergeGlowData S P).home.trendingNews = l))
    ∧ ((S.home.featuredNews ≠ [] → (mergeGlowData S P).home.featuredNews ≠ [])
      ∧ (((P.home.getD emptyHomePatch).featuredNews = none
            ∨ (P.home.getD emptyHomePatch).featuredNews = some []) →
          (mergeGlowData S P).home.featuredNews = S.home.featuredNews)
      ∧ (∀ l, (P.home.getD emptyHomePatch).featuredNews = some l → l ≠ [] →
          (mergeGlowData S P).home.featuredNews = l))
    ∧ ((S.home.mostViewedNews ≠ [] →
          (mergeGlowData S P).home.mostViewedNews ≠ [])
      ∧ (((P.home.getD emptyHomePatch).mostViewedNews = none
            ∨ (P.home.getD emptyHomePatch).mostViewedNews = some []) →
          (mergeGlowData S P).home.mostViewedNews = S.home.mostViewedNews)
      ∧ (∀ l, (P.home.getD emptyHomePatch).mostViewedNews = some l → l ≠ [] →
          (mergeGlowData S P).home.mostViewedNews = l))
    ∧ ((S.home.otherNews ≠ [] → (mergeGlowData S P).home.otherNews ≠ [])
      ∧ (((P.home.getD emptyHomePatch).otherNews = none
            ∨ (P.home.getD emptyHomePatch).otherNews = some []) →
          (mergeGlowData S P).home.otherNews = S.home.otherNews)
      ∧ (∀ l, (P.home.getD emptyHomePatch).otherNews = some l → l ≠ [] →
          (mergeGlowData S P).home.otherNews = l))
    ∧ ((S.home.latestNews ≠ [] → (mergeGlowData S P).home.latestNews ≠ [])
      ∧ (((P.home.getD emptyHomePatch).latestNews = none
            ∨ (P.home.getD emptyHomePatch).latestNews = some []) →
          (mergeGlowData S P).home.latestNews = S.home.latestNews)
      ∧ (∀ l, (P.home.getD emptyHomePatch).latestNews = some l → l ≠ [] →
          (mergeGlowData S P).home.latestNews = l))
    ∧ ((S.home.latestBlogPosts ≠ [] →
          (mergeGlowData S P).home.latestBlogPosts ≠ [])
      ∧ (((P.home.getD emptyHomePatch).latestBlogPosts = none
            ∨ (P.home.getD emptyHomePatch).latestBlogPosts = some []) →
          (mergeGlowData S P).home.latestBlogPosts = S.home.latestBlogPosts)
      ∧ (∀ l, (P.home.getD emptyHomePatch).latestBlogPosts = some l →
          l ≠ [] → (mergeGlowData S P).home.latestBlogPosts = l))
    ∧ ((S.home.latestPodcastEpisodes ≠ [] →
          (mergeGlowData S P).home.latestPodcastEpisodes ≠ [])
      ∧ (((P.home.getD emptyHomePatch).latestPodcastEpisodes = none
            ∨ (P.home.getD emptyHomePatch).latestPodcastEpisodes = some []) →
          (mergeGlowData S P).home.latestPodcastEpisodes
            = S.home.latestPodcastEpisodes)
      ∧ (∀ l, (P.home.getD emptyHomePatch).latestPodcastEpisodes = some l →
          l ≠ [] → (mergeGlowData S P).home.latestPodcastEpisodes = l))
    ∧ ((S.home.featuredShows ≠ [] →
          (mergeGlowData S P).home.featuredShows ≠ [])
      ∧ (((P.home.getD emptyHomePatch).featuredShows = none
            ∨ (P.home.getD emptyHomePatch).featuredShows = some []) →
          (mergeGlowData S P).home.featuredShows = S.home.featuredShows)
      ∧ (∀ l, (P.home.getD emptyHomePatch).featuredShows = some l → l ≠ [] →
          (mergeGlowData S P).home.featuredShows = l))
    ∧ (∀ ls, P.shows = some ls → (mergeGlowData S P).shows = ls)
    ∧ (∀ ls, P.showCategories = some ls →
        (mergeGlowData S P).showCategories = ls)
    ∧ (∀ ls, (P.home.getD emptyHomePatch).upcomingEvents = some ls →
        (mergeGlowData S P).home.upcomingEvents = ls) := by
  refine ⟨listPatch_spec _ _, listPatch_spec _ _, listPatch_spec _ _,
    listPatch_spec _ _, listPatch_spec _ _, listPatch_spec _ _,
    listPatch_spec _ _, listPatch_spec _ _, listPatch_spec _ _,
    listPatch_spec _ _, listPatch_spec _ _, listPatch_spec _ _,
    ?_, ?_, ?_⟩
  · intro ls h
    simp [mergeGlowData, h]
  · intro ls h
    simp [mergeGlowData, h]
  · intro ls h
    simp [mergeGlowData, h]

/-- C1 witness: a patch with an explicitly empty newsPosts list leaves
the old newsPosts in place. -/
theorem mergeGlowData_nonempty_wins_witness :
    (mergeGlowData sampleBase sampleC1P).newsPosts = sampleBase.newsPosts :=
  (mergeGlowData_nonempty_wins sampleBase sampleC1P).1.2.1 (Or.inr rfl)

/-- C2 counterexample: the patch supplies the empty string (an empty
value) for hero.host, yet the merge result takes it instead of keeping
the previously known non-empty host, so a supplied-but-empty key does
not retain the old snapshot value. -/
theorem mergeGlowData_hero_empty_overwrites :
    sampleBase.home.hero "host" = some "Ada"
    ∧ ((sampleC2P.home.getD emptyHomePatch).hero.getD emptyRcd) "host"
        = some ""
    ∧ (mergeGlowData sampleBase sampleC2P).home.hero "host" = some ""
    ∧ (mergeGlowData sampleBase sampleC2P).home.hero "host"
        ≠ sampleBase.home.hero "host" := by
  refine ⟨rfl, rfl, rfl, ?_⟩
  intro h
  simp [sampleBase, sampleC2P, mergeGlowData, rcdSpread, sampleHero,
    emptyHomePatch, emptyGlowPatch] at h

/-- C2 amended: hero and currentShow are merged key by key, not
replaced wholesale, with a supplied-key-wins rule: any key the patch
record supplies (with an empty value or not) takes the patch value, and
any key the patch omits keeps the old snapshot value, so a patch
missing host never blanks out a previously known host. -/
theorem mergeGlowData_nested_records_keywise (S : GlowData) (P : GlowPatch) :
    (∀ k v, ((P.home.getD emptyHomePatch).hero.getD emptyRcd) k = some v →
        (mergeGlowData S P).home.hero k = some v)
    ∧ (∀ k, ((P.home.getD emptyHomePatch).hero.getD emptyRcd) k = none →
        (mergeGlowData S P).home.hero k = S.home.hero k)
    ∧ (∀ k v,
        ((P.home.getD emptyHomePatch).currentShow.getD emptyRcd) k = some v →
        (mergeGlowData S P).home.currentShow k = some v)
    ∧ (∀ k,
        ((P.home.getD emptyHomePatch).currentShow.getD emptyRcd) k = none →
        (mergeGlowData S P).home.currentShow k = S.home.currentShow k) := by
  refine ⟨?_, ?_, ?_, ?_⟩
  · intro k v h
    show rcdSpread S.home.hero
      ((P.home.getD emptyHomePatch).hero.getD emptyRcd) k = some v
    rw [rcdSpread, h]
  · intro k h
    show rcdSpread S.home.hero
      ((P.home.getD emptyHomePatch).hero.getD emptyRcd) k = S.home.hero k
    rw [rcdSpread, h]
  · intro k v h
    show rcdSpread S.home.currentShow
      ((P.home.getD emptyHomePatch).currentShow.getD emptyRcd) k = some v
    rw [rcdSpread, h]
  · intro k h
    show rcdSpread S.home.currentShow
      ((P.home.getD emptyHomePatch).currentShow.getD emptyRcd) k
      = S.home.currentShow k
    rw [rcdSpread, h]

/-- C2 witness: a supplied hero.title wins while the omitted
currentShow.title keeps its old value. -/
theorem mergeGlowData_nested_records_keywise_witness :
    (mergeGlowData sampleBase sampleC2P).home.hero "title" = some "New Title"
    ∧ (mergeGlowData sampleBase sampleC2P).home.currentShow "title"
        = sampleBase.home.currentShow "title" :=
  ⟨(mergeGlowData_nested_records_keywise sampleBase sampleC2P).1
      "title" "New Title" rfl,
    (mergeGlowData_nested_records_keywise sampleBase sampleC2P).2.2.2
      "title" rfl⟩

/-- C3: a sync call that finds the in-progress guard set returns before
any fetch is issued and changes nothing, forced or not; and whenever
the fetch chain was invoked, the guard and the isSyncing flag are both
false on exit, for each of the success, no-data and thrown-error
outcomes. -/
theorem sync_inflight_guard (st : SyncState) (force active : Bool)
    (now fin : Nat) (oc : FetchOutcome) :
    (st.lock = true → sync st force active now fin oc = (st, false))
    ∧ (∀ st2 issued, sync st force active now fin oc = (st2, issued) →
        issued = true → st2.lock = false ∧ st2.isSyncing = false) := by
  constructor
  · intro h
    simp [sync, h]
  · intro st2 issued heq hiss
    unfold sync at heq
    split at heq
    · cases heq
      cases hiss
    · split at heq
      · cases heq
        cases hiss
      · cases oc with
        | patch p => cases heq; exact ⟨rfl, rfl⟩
        | noData => cases heq; exact ⟨rfl, rfl⟩
        | err => cases heq; exact ⟨rfl, rfl⟩

/-- C3 witness: with the guard set a forced call is a no-op issuing no
fetch, and after a completed attempt both indicators are clear. -/
theorem sync_inflight_guard_witness :
    sync sampleLocked true true 50000 50001 .noData = (sampleLocked, false)
    ∧ ((sync sampleUnlocked true true 0 42 .noData).1.lock = false
      ∧ (sync sampleUnlocked true true 0 42 .noData).1.isSyncing = false) :=
  ⟨(sync_inflight_guard sampleLocked true true 50000 50001 .noData).1 rfl,
    (sync_inflight_guard sampleUnlocked true true 0 42 .noData).2 _ _ rfl rfl⟩

/-- C4: when the fetch chain yields no data the snapshot and the
last-success timestamp are unchanged and (whenever the attempt actually
ran) the isSyncing indicator ends false; a thrown error likewise leaves
snapshot and timestamp unchanged; and only a usable patch replaces the
snapshot by the merge result and sets the timestamp.  No outcome raises
to the caller: sync is a total function on every outcome. -/
theorem sync_outcome_effects (st : SyncState) (force active : Bool)
    (now fin : Nat) :
    (∀ st2 issued, sync st force active now fin .noData = (st2, issued) →
        st2.data = st.data ∧ st2.lastSync = st.lastSync
        ∧ (issued = true → st2.isSyncing = false))
    ∧ (∀ st2 issued, sync st force active now fin .err = (st2, issued) →
        st2.data = st.data ∧ st2.lastSync = st.lastSync)
    ∧ (∀ p st2 issued,
        sync st force active now fin (.patch p) = (st2, issued) →
        issued = true →
        st2.data = mergeGlowData st.data p ∧ st2.lastSync = fin) := by
  refine ⟨?_, ?_, ?_⟩
  · intro st2 issued heq
    unfold sync at heq
    split at heq
    · cases heq
      exact ⟨rfl, rfl, fun h => by cases h⟩
    · split at heq
      · cases heq
        exact ⟨rfl, rfl, fun h => by cases h⟩
      · cases heq
        exact ⟨rfl, rfl, fun _ => rfl⟩
  · intro st2 issued heq
    unfold sync at heq
    split at heq
    · cases heq
      exact ⟨rfl, rfl⟩
    · split at heq
      · cases heq
        exact ⟨rfl, rfl⟩
      · cases heq
        exact ⟨rfl, rfl⟩
  · intro p st2 issued heq hiss
    unfold sync at heq
    split at heq
    · cases heq
      cases hiss
    · split at heq
      · cases heq
        cases hiss
      · cases heq
        exact ⟨rfl, rfl⟩

/-- C4 witness: a no-data attempt leaves the sample snapshot in place,
and a successful attempt stamps the success time. -/
theorem sync_outcome_effects_witness :
    (sync sampleUnlocked true true 0 42 .noData).1.data = sampleUnlocked.data
    ∧ (sync sampleUnlocked true true 0 42
        (.patch emptyGlowPatch)).1.lastSync = 42 :=
  ⟨((sync_outcome_effects sampleUnlocked true true 0 42).1 _ _ rfl).1,
    ((sync_outcome_effects sampleUnlocked true true 0 42).2.2
      emptyGlowPatch _ _ rfl rfl).2⟩

/-- C5: the scraped-state extraction is a total function that signals
no-data instead of raising: on an input without the fixed
wire:snapshot marker it returns none, and when the unescaped captured
attribute is not valid JSON (the parser rejects it, where JSON.parse
would throw) it also returns none, so the caller can fall through to
the next source. -/
theorem extractWireSnapshot_no_data (parse : String → Option Json)
    (html : String) :
    (containsSub snapshotMarker html.toList = false →
        extractWireSnapshot parse html = none)
    ∧ (∀ cap, scanSnapshot html.toList = some cap →
        parse (htmlUnescape cap) = none →
        extractWireSnapshot parse html = none) := by
  constructor
  · intro hno
    cases hscan : scanSnapshot html.toList with
    | none =>
      show (match scanSnapshot html.toList with
        | none => none
        | some captured => parse (htmlUnescape captured)) = none
      rw [hscan]
    | some v =>
      have hc := scanSnapshot_some_containsSub html.toList v hscan
      rw [hno] at hc
      exact absurd hc (by simp)
  · intro cap hscan hp
    show (match scanSnapshot html.toList with
      | none => none
      | some captured => parse (htmlUnescape captured)) = none
    rw [hscan]
    exact hp

/-- C5 witness: a page without the marker extracts to none, for a
parser rejecting every string. -/
theorem extractWireSnapshot_no_data_witness :
    extractWireSnapshot (fun _ => none) "<div>plain page</div>" = none :=
  (extractWireSnapshot_no_data (fun _ => none) "<div>plain page</div>").1
    (by decide)

/-- C6: the fetch chain consults the API bundle first, then the remote
JSON endpoint, then the scraped state, stopping at the first source
with a usable patch; the remote JSON source with the unconfigured
default URL issues no request and yields no data; with a configured
URL its payload is accepted exactly when it is a JSON object carrying a
home key. -/
theorem fetch_chain_priority :
    (∀ (p : GlowPatch) (r2 r3 : Option GlowPatch),
        fetchChain (some p) r2 r3 = (some p, 1))
    ∧ (∀ (p : GlowPatch) (r3 : Option GlowPatch),
        fetchChain none (some p) r3 = (some p, 2))
    ∧ (∀ r3 : Option GlowPatch, fetchChain none none r3 = (r3, 3))
    ∧ (∀ net : Option Json, fetchRemoteJson REMOTE_GLOW_DATA_URL net
        = (none, false))
    ∧ (∀ url : String, url ≠ "" → ∀ pl : Json, jsonHasHome pl = true →
        fetchRemoteJson url (some pl) = (some pl, true))
    ∧ (∀ url : String, url ≠ "" → ∀ pl : Json, jsonHasHome pl = false →
        fetchRemoteJson url (some pl) = (none, true)) := by
  refine ⟨fun _ _ _ => rfl, fun _ _ => rfl, fun _ => rfl,
    fun _ => rfl, ?_, ?_⟩
  · intro url hu pl hh
    simp [fetchRemoteJson, hu, hh]
  · intro url hu pl hh
    simp [fetchRemoteJson, hu, hh]

/-- C6 witness: a configured URL with an object payload carrying a home
key is accepted after one request. -/
theorem fetch_chain_priority_witness :
    fetchRemoteJson "https://example.com/glow.json"
        (some (.obj (.cons "home" .null .nil)))
      = (some (.obj (.cons "home" .null .nil)), true) :=
  fetch_chain_priority.2.2.2.2.1 "https://example.com/glow.json"
    (by decide) (.obj (.cons "home" .null .nil)) rfl

/-- C7: unwrapSingleton repeatedly replaces a one-element array by its
sole element and leaves every other value unchanged; on the spec
examples the doubly wrapped object unwraps to the object, and a
two-element list is untouched both by unwrapSingleton and by the
per-entry unwrap of normalizeList. -/
theorem unwrapSingleton_spec :
    (∀ x : Json, unwrapSingleton (.arr (.cons x .nil)) = unwrapSingleton x)
    ∧ (∀ v : Json, isSingletonArr v = false → unwrapSingleton v = v)
    ∧ unwrapSingleton (.arr (.cons (.arr (.cons objA1 .nil)) .nil)) = objA1
    ∧ unwrapSingleton (.arr (.cons objA1 (.cons objA2 .nil)))
        = .arr (.cons objA1 (.cons objA2 .nil))
    ∧ normalizeList (.arr (.cons objA1 (.cons objA2 .nil)))
        = .cons objA1 (.cons objA2 .nil) := by
  refine ⟨fun x => rfl, ?_, rfl, rfl, rfl⟩
  intro v hv
  cases v with
  | null => rfl
  | bool b => rfl
  | num n => rfl
  | str s => rfl
  | obj fields => rfl
  | arr items =>
    cases items with
    | nil => rfl
    | cons x tl =>
      cases tl with
      | nil => simp [isSingletonArr] at hv
      | cons y tl2 => rfl

/-- C7 witness: a scalar is not a singleton array and unwraps to
itself. -/
theorem unwrapSingleton_spec_witness :
    unwrapSingleton (.num 5) = .num 5 :=
  unwrapSingleton_spec.2.1 (.num 5) rfl

/-- C8: every object node containing the reserved key s is pruned in
its entirety, at the root, inside a record field and as an array entry
alike, while objects without the reserved key keep their remaining
content. -/
theorem stripLivewire_wrapper_pruned :
    (∀ fs : JsonFields, hasKeyS fs = true → stripLivewire (.obj fs) = none)
    ∧ stripLivewire wrapperNode = none
    ∧ stripLivewire (.obj (.cons "keep" (.num 2) (.cons "w" wrapperNode .nil)))
        = some (.obj (.cons "keep" (.num 2) .nil))
    ∧ stripLivewire
          (.arr (.cons (.num 3) (.cons wrapperNode (.cons (.num 4) .nil))))
        = some (.arr (.cons (.num 3) (.cons (.num 4) .nil)))
    ∧ stripLivewire (.obj (.cons "x" (.num 1) (.cons "y" (.str "a") .nil)))
        = some (.obj (.cons "x" (.num 1) (.cons "y" (.str "a") .nil))) := by
  refine ⟨?_, rfl, rfl, rfl, rfl⟩
  intro fs h
  simp [stripLivewire, h]

/-- C8 witness: an object whose field list carries the reserved key is
pruned to nothing. -/
theorem stripLivewire_wrapper_pruned_witness :
    stripLivewire (.obj (.cons "s" (.num 9) .nil)) = none :=
  stripLivewire_wrapper_pruned.1 (.cons "s" (.num 9) .nil) rfl

/-- C10: the cleaning pass drops every null entry from arrays at every
depth (whatever it returns satisfies the arrays-null-free invariant),
while scalar values pass through unchanged and a wrapper-free record
field may keep a null value. -/
theorem stripLivewire_null_entries_dropped :
    (∀ j v : Json, stripLivewire j = some v → arraysNullFree v = true)
    ∧ stripLivewire .null = some .null
    ∧ (∀ b, stripLivewire (.bool b) = some (.bool b))
    ∧ (∀ n, stripLivewire (.num n) = some (.num n))
    ∧ (∀ s, stripLivewire (.str s) = some (.str s))
    ∧ stripLivewire (.arr (.cons .null (.cons (.num 7) .nil)))
        = some (.arr (.cons (.num 7) .nil))
    ∧ stripLivewire (.obj (.cons "x" .null .nil))
        = some (.obj (.cons "x" .null .nil)) :=
  ⟨strip_arraysNullFree, rfl, fun _ => rfl, fun _ => rfl, fun _ => rfl,
    rfl, rfl⟩

/-- C10 witness: the cleaned two-entry array with its null dropped
satisfies the null-free invariant. -/
theorem stripLivewire_null_entries_dropped_witness :
    arraysNullFree (.arr (.cons (.num 7) .nil)) = true :=
  stripLivewire_null_entries_dropped.1
    (.arr (.cons .null (.cons (.num 7) .nil)))
    (.arr (.cons (.num 7) .nil)) rfl
